import Mathlib

/-!
Verification of the middleware composition engine of the nitric python SDK
(`nitric/context.py`), shallowly embedded in Lean 4.

Embedding choices:

* Python async execution is modelled by the monad `M σ E α := σ → Except (PyExc E) α × σ`:
  a computation reads and updates an ambient mutable store `σ` (used to record, e.g.,
  the order in which middleware run) and either returns a value or raises an
  exception.  Exceptions preserve the store, as in Python.  Each single pipeline
  invocation is strictly sequential (the code awaits every nested call), so the
  async layer adds nothing beyond sequencing and is elided.
* A Python exception is either a `TypeError` arising from a bad call (calling
  `None`, or calling a function with an arity its signature rejects) or a
  user-raised exception `PyExc.exc e`.
* A Python callable is modelled by `PyFunc`: its number of required (no-default)
  parameters, its number of defaulted parameters, and its body.  Calling it with
  `n` positional arguments succeeds iff `required ≤ n ≤ required + optional`,
  otherwise Python raises `TypeError`; `pyCall1`/`pyCall2` model 1- and 2-argument
  calls.  `inspect.signature`-based classification (`_is_handler`) reads the
  `required` count, exactly as the source counts the parameters whose default is
  `inspect.Parameter.empty`.
* Inside the composer every continuation (`nxt` / `acc_next`) is invoked with a
  single argument (`await nxt(ctx)`, `middleware_chain(ctx)`), and the
  `Middleware` protocol's `nxt` defaults to `None`; a continuation is therefore
  modelled as `Kont σ E C := C → M σ E C`, the semantics of a one-argument call.
* Python truthiness (`if not output_context`) is uninterpretable on an abstract
  context type, so the composer takes the truthiness test `truthy : C → Bool` of
  the context domain as a parameter; trigger contexts are class instances and are
  always truthy, while `None` (modelled by `Option.none` when `C` is an `Option`
  type) is falsy.
-/

namespace Nitric

/-- A Python exception: either a `TypeError` from calling `None` / an
arity-mismatched call, or a user exception carrying a value of `E`. -/
inductive PyExc (E : Type) : Type where
  | typeError : PyExc E
  | exc : E → PyExc E
deriving DecidableEq, Repr

/-- The execution monad: state `σ` (an ambient store used to observe execution
order) together with Python exceptions over `E`.  Raising preserves the store. -/
def M (σ E α : Type) : Type := σ → Except (PyExc E) α × σ

instance : Monad (M σ E) where
  pure a := fun s => (Except.ok a, s)
  bind x f := fun s =>
    match x s with
    | (Except.ok a, s') => f a s'
    | (Except.error e, s') => (Except.error e, s')

/-- Raise a Python exception. -/
def throwE (e : PyExc E) : M σ E α := fun s => (Except.error e, s)

/-- Mutate the ambient store (e.g. append a tag to a shared ordered log). -/
def modifyLog (f : σ → σ) : M σ E Unit := fun s => (Except.ok (), f s)

/-- Run a computation on an initial store. -/
def runM (x : M σ E α) (s : σ) : Except (PyExc E) α × σ := x s

theorem runM_pure (a : α) (s : σ) : runM (pure a : M σ E α) s = (Except.ok a, s) := rfl

theorem runM_bind (x : M σ E α) (f : α → M σ E β) (s : σ) :
    runM (x >>= f) s =
      match runM x s with
      | (Except.ok a, s') => runM (f a) s'
      | (Except.error e, s') => (Except.error e, s') := rfl

theorem runM_throwE (e : PyExc E) (s : σ) :
    runM (throwE e : M σ E α) s = (Except.error e, s) := rfl

theorem runM_modifyLog (f : σ → σ) (s : σ) :
    runM (modifyLog f : M σ E Unit) s = (Except.ok (), f s) := rfl

theorem M.pure_bind (a : α) (f : α → M σ E β) : (pure a : M σ E α) >>= f = f a := rfl

/-- The semantics of calling a Python callable with one argument: what a
middleware does with its continuation (`await nxt(ctx)`). -/
abbrev Kont (σ E C : Type) : Type := C → M σ E C

/-- A Python callable: the count of required (no-default) parameters, the count
of defaulted parameters, and the body.  A one-parameter function's body never
looks at the second slot. -/
structure PyFunc (σ E C : Type) where
  required : Nat
  optional : Nat
  body : C → Option (Kont σ E C) → M σ E C

/-- Call a Python callable with one positional argument; `TypeError` when the
signature does not accept exactly one argument. -/
def pyCall1 (f : PyFunc σ E C) (c : C) : M σ E C :=
  if f.required ≤ 1 ∧ 1 ≤ f.required + f.optional then f.body c none
  else throwE PyExc.typeError

/-- Call a Python callable with two positional arguments; `TypeError` when the
signature does not accept two arguments. -/
def pyCall2 (f : PyFunc σ E C) (c : C) (k : Option (Kont σ E C)) : M σ E C :=
  if f.required ≤ 2 ∧ 2 ≤ f.required + f.optional then f.body c k
  else throwE PyExc.typeError

/-- `await nxt(ctx) if nxt else ctx`: defer to the continuation when present,
otherwise keep the context.  (`None` is the only falsy continuation; functions
are truthy.) -/
def callOpt (nxt : Option (Kont σ E C)) (c : C) : M σ E C :=
  match nxt with
  | some n => n c
  | none => pure c

/-- `_is_handler` (context.py:327): a callable is a handler iff it has exactly
one parameter whose default is `inspect.Parameter.empty`. -/
def _is_handler (unknown : PyFunc σ E C) : Bool :=
  unknown.required == 1

/-- `_convert_to_middleware` (context.py:314): wrap a handler into middleware
shape; a non-handler is returned unchanged.  The wrapper `middleware(ctx, nxt)`
has two required parameters; it awaits the handler on the context and then
defers to `nxt` with the handler's result when `nxt` is present. -/
def _convert_to_middleware (handler : PyFunc σ E C) : PyFunc σ E C :=
  if !(_is_handler handler) then handler
  else
    { required := 2
      optional := 0
      body := fun ctx nxt => do
        let context ← pyCall1 handler ctx
        callOpt nxt context }

/-- `chained_middleware` (context.py:348): the step built by `reduce_chain` for
middleware `cur` with accumulated continuation `acc_next`.  Its signature is
`(ctx, nxt=None)`.  Body: `result = (await nxt(ctx)) if nxt is not None else
ctx`; `output_context = await cur(result, acc_next)`; `if not output_context:
return result`; `return output_context`. -/
def chained_middleware (truthy : C → Bool) (cur : PyFunc σ E C)
    (acc_next : Option (Kont σ E C)) : PyFunc σ E C where
  required := 1
  optional := 1
  body := fun ctx nxt => do
    let result ← callOpt nxt ctx
    let output_context ← pyCall2 cur result acc_next
    if truthy output_context then pure output_context else pure result

/-- `reduce_chain` (context.py:347): fold one middleware onto the accumulated
chain.  The produced step is only ever invoked with a single argument (by the
composer itself or by an earlier middleware calling its `nxt`), so it is stored
as the corresponding one-argument call. -/
def reduce_chain (truthy : C → Bool) (acc_next : Option (Kont σ E C))
    (cur : PyFunc σ E C) : Option (Kont σ E C) :=
  some (pyCall1 (chained_middleware truthy cur acc_next))

/-- `functools.reduce(reduce_chain, reversed(middlewares), last_middleware)`
(context.py:358). -/
def build_chain (truthy : C → Bool) (ms : List (PyFunc σ E C))
    (last_middleware : Option (Kont σ E C)) : Option (Kont σ E C) :=
  ms.reverse.foldl (reduce_chain truthy) last_middleware

/-- `compose_middleware` (context.py:335): convert each supplied callable via
`_convert_to_middleware`, then produce `composed(ctx, nxt=None)` which folds the
converted middleware from the right over the trailing `nxt` and awaits
`middleware_chain(ctx)`.  When the chain is `None` (no middleware and no
trailing `nxt`), Python raises `TypeError` for calling `None`. -/
def compose_middleware (truthy : C → Bool) (middlewares : List (PyFunc σ E C)) :
    PyFunc σ E C :=
  let ms := middlewares.map _convert_to_middleware
  { required := 1
    optional := 1
    body := fun ctx nxt =>
      match build_chain truthy ms nxt with
      | some middleware_chain => middleware_chain ctx
      | none => throwE PyExc.typeError }

/-- A Python `async def handler(ctx)`: one required parameter. -/
def mkHandler (h : C → M σ E C) : PyFunc σ E C :=
  { required := 1, optional := 0, body := fun c _ => h c }

/-- A Python `async def middleware(ctx, nxt)`: two required parameters. -/
def mkMiddleware (b : C → Option (Kont σ E C) → M σ E C) : PyFunc σ E C :=
  { required := 2, optional := 0, body := b }

/-- A pre-processing middleware: append `tag` to the shared log, transform the
context with `g`, then forward to `nxt` (returning its result), or return the
transformed context when `nxt` is absent. -/
def preMid (tag : String) (g : C → C) : PyFunc (List String) E C :=
  mkMiddleware fun c nxt => do
    modifyLog (fun l => l ++ [tag])
    callOpt nxt (g c)

/-- A middleware that short-circuits: it records that it ran and then returns
`None` (falsy) without calling its continuation. -/
def scMid : PyFunc (List String) E (Option Γ) :=
  mkMiddleware fun _ _ => do
    modifyLog (fun l => l ++ ["sc"])
    pure none

/-- A middleware that raises the user exception `e` without calling its
continuation. -/
def throwMid (e : E) : PyFunc σ E C :=
  mkMiddleware fun _ _ => throwE (PyExc.exc e)

/-! ### Structure of the folded chain -/

theorem build_chain_cons (truthy : C → Bool) (m : PyFunc σ E C)
    (ms : List (PyFunc σ E C)) (last : Option (Kont σ E C)) :
    build_chain truthy (m :: ms) last =
      some (pyCall1 (chained_middleware truthy m (build_chain truthy ms last))) := by
  simp [build_chain, reduce_chain, List.foldl_append]

/-- A converted pre-processing middleware is unchanged: it has two required
parameters, so it is not classified as a handler. -/
theorem convert_mkMiddleware (b : C → Option (Kont σ E C) → M σ E C) :
    _convert_to_middleware (mkMiddleware b) = mkMiddleware b := rfl

/-- On a non-empty input, the composed callable invoked with `(ctx, None)` is
the one-argument call of the head of the folded chain. -/
theorem composed_body_eq (truthy : C → Bool) (m : PyFunc σ E C)
    (ms : List (PyFunc σ E C)) (ctx : C) :
    (compose_middleware truthy (m :: ms)).body ctx none =
      callOpt (build_chain truthy ((m :: ms).map _convert_to_middleware) none) ctx := by
  show (match build_chain truthy ((m :: ms).map _convert_to_middleware) none with
        | some middleware_chain => middleware_chain ctx
        | none => throwE PyExc.typeError) = _
  rw [List.map_cons, build_chain_cons]
  rfl

/-- Calling a two-required-parameter middleware with two arguments runs its
body. -/
theorem pyCall2_mkMiddleware (b : C → Option (Kont σ E C) → M σ E C) (c : C)
    (k : Option (Kont σ E C)) : pyCall2 (mkMiddleware b) c k = b c k := rfl

/-- Calling a pre-processing middleware with two arguments: log the tag, then
defer to the continuation on the transformed context. -/
theorem pyCall2_preMid (tag : String) (g : C → C) (c : C)
    (k : Option (Kont (List String) E C)) :
    pyCall2 (preMid tag g) c k =
      (modifyLog (fun l => l ++ [tag]) : M (List String) E Unit) >>= fun _ =>
        callOpt k (g c) := rfl

/-- Running a chained step with no incoming `nxt`: invoke the wrapped middleware
on the incoming context with the accumulated continuation; keep its output when
truthy, otherwise fall back to the incoming context; propagate exceptions. -/
theorem chained_run_none (truthy : C → Bool) (cur : PyFunc σ E C)
    (acc : Option (Kont σ E C)) (c : C) (s : σ) :
    runM ((chained_middleware truthy cur acc).body c none) s =
      match runM (pyCall2 cur c acc) s with
      | (Except.ok out, s') =>
          if truthy out then (Except.ok out, s') else (Except.ok c, s')
      | (Except.error e, s') => (Except.error e, s') := by
  show runM (pyCall2 cur c acc >>= fun out =>
      if truthy out then pure out else pure c) s = _
  rw [runM_bind]
  rcases hr : runM (pyCall2 cur c acc) s with ⟨e | a, s'⟩
  · rfl
  · cases h : truthy a <;> simp [h, runM, pure]

/-- Running a chain of pre-processing middleware with no trailing continuation:
the tags are recorded in declaration order and the context transforms are
applied left to right. -/
theorem pre_chain_run (ps : List (String × (C → C))) (c : C) (s : List String) :
    runM (callOpt (build_chain (E := E) (fun _ => true)
        (ps.map (fun r => preMid r.1 r.2)) none) c) s =
      (Except.ok (ps.foldl (fun x r => r.2 x) c), s ++ ps.map Prod.fst) := by
  induction ps generalizing c s with
  | nil => simp [build_chain, callOpt, runM, pure]
  | cons p ps ih =>
    rw [List.map_cons, build_chain_cons]
    show runM ((chained_middleware (fun _ => true) (preMid p.1 p.2)
        (build_chain (fun _ => true) (ps.map fun r => preMid r.1 r.2) none)).body c none) s = _
    rw [chained_run_none, pyCall2_preMid]
    simp only [runM_bind, runM_modifyLog]
    rw [ih]
    simp

/-- Conversion leaves a list of pre-processing middleware unchanged (each has
two required parameters). -/
theorem map_convert_preMid (ps : List (String × (C → C))) :
    (ps.map (fun r => preMid (E := E) r.1 r.2)).map _convert_to_middleware =
      ps.map (fun r => preMid r.1 r.2) := by
  rw [List.map_map]; rfl

/-! ### C1: pre-processing order of a composed chain -/

/-- C1 counterexample: two logging middlewares `A` and `B` that append their
tag to the shared log and forward.  Composing `[A, B]` and invoking records the
log `["A", "B"]` - declaration order - not the `["B", "A"]` that the claimed
last-declared-runs-first pre-pass would produce. -/
theorem c1_counterexample :
    runM ((compose_middleware (fun _ => true)
        [(preMid "A" (fun n => n) : PyFunc (List String) Unit Nat),
         preMid "B" (fun n => n)]).body 0 none) [] = (Except.ok 0, ["A", "B"])
    ∧ (["A", "B"] : List String) ≠ ["B", "A"] :=
  ⟨rfl, by decide⟩

/-- C1 (amended): for every sequence of two or more pre-processing middleware
(each logs a tag, transforms the context, and forwards to its `next`), the
composed chain runs the pre-processing phase in conventional first-declared
runs-first order: the log lists the tags in declaration order, and the context
transforms are applied left to right. -/
theorem c1_declaration_order (p q : String × (C → C)) (ps : List (String × (C → C)))
    (c : C) (s : List String) :
    runM ((compose_middleware (fun _ => true)
        ((p :: q :: ps).map (fun r => preMid (E := E) r.1 r.2))).body c none) s =
      (Except.ok ((p :: q :: ps).foldl (fun x r => r.2 x) c),
       s ++ (p :: q :: ps).map Prod.fst) := by
  rw [List.map_cons, List.map_cons, composed_body_eq]
  show runM (callOpt (build_chain (fun _ => true)
      (((p :: q :: ps).map (fun r => preMid (E := E) r.1 r.2)).map _convert_to_middleware)
      none) c) s = _
  rw [map_convert_preMid, pre_chain_run]

/-! ### C2: the concrete counter scenario -/

/-- `inc1`: increment the counter by 1, then call `next` (logging its tag so
the order of the two pre-next increments is observable). -/
def inc1 : PyFunc (List String) Unit Nat := preMid "inc1" (· + 1)

/-- `inc2`: increment the counter by 2, then call `next`. -/
def inc2 : PyFunc (List String) Unit Nat := preMid "inc2" (· + 2)

/-- C2 counterexample: composing `[inc1, inc2]` on a counter at 0 does yield 3,
but `inc1`'s pre-next increment runs first - the log is `["inc1", "inc2"]`, not
the `["inc2", "inc1"]` the claimed order requires. -/
theorem c2_counterexample :
    runM ((compose_middleware (fun _ => true) [inc1, inc2]).body 0 none) [] =
      (Except.ok 3, ["inc1", "inc2"])
    ∧ (["inc1", "inc2"] : List String) ≠ ["inc2", "inc1"] :=
  ⟨rfl, by decide⟩

/-- C2 (amended): invoking `compose_middleware(inc1, inc2)` on a counter at 0
with no trailing next yields counter 3, with `inc1`'s pre-next increment
applied before `inc2`'s. -/
theorem c2_counter_three :
    runM ((compose_middleware (fun _ => true) [inc1, inc2]).body 0 none) [] =
      (Except.ok 3, ["inc1", "inc2"]) := rfl

/-! ### C3: short-circuit on a falsy middleware result -/

/-- On any non-empty input, the composed callable invoked with `(ctx, None)` is
the one-argument call of the head of the folded chain. -/
theorem composed_body_ne_nil (truthy : C → Bool) (ms : List (PyFunc σ E C))
    (h : ms ≠ []) (ctx : C) :
    (compose_middleware truthy ms).body ctx none =
      callOpt (build_chain truthy (ms.map _convert_to_middleware) none) ctx := by
  cases ms with
  | nil => exact absurd rfl h
  | cons m ms => exact composed_body_eq truthy m ms ctx

/-- Calling the short-circuiting middleware: log that it ran, return `None`. -/
theorem pyCall2_scMid (c : Option Γ) (k : Option (Kont (List String) E (Option Γ))) :
    pyCall2 scMid c k =
      (modifyLog (fun l => l ++ ["sc"]) : M (List String) E Unit) >>= fun _ =>
        pure (none : Option Γ) := rfl

/-- Running a chain made of pre-processing middleware, then a middleware that
returns `None` without calling its continuation, then arbitrary further
middleware `rest`: the chain stops at the falsy middleware.  Only the
pre-processors and the falsy middleware record log entries, the result is the
context exactly as it was when the falsy middleware received it, and nothing
depends on `rest`. -/
theorem sc_chain_run (rest : List (PyFunc (List String) E (Option Γ)))
    (ps : List (String × (Γ → Γ))) (c : Γ) (s : List String) :
    runM (callOpt (build_chain Option.isSome
        (ps.map (fun r => preMid r.1 (Option.map r.2)) ++ scMid :: rest) none)
        (some c)) s =
      (Except.ok (some (ps.foldl (fun x r => r.2 x) c)),
       s ++ (ps.map Prod.fst ++ ["sc"])) := by
  induction ps generalizing c s with
  | nil =>
    rw [List.map_nil, List.nil_append, build_chain_cons]
    show runM ((chained_middleware Option.isSome scMid
        (build_chain Option.isSome rest none)).body (some c) none) s = _
    rw [chained_run_none, pyCall2_scMid]
    simp only [runM_bind, runM_modifyLog, runM_pure]
    simp
  | cons p ps ih =>
    rw [List.map_cons, List.cons_append, build_chain_cons]
    show runM ((chained_middleware Option.isSome (preMid p.1 (Option.map p.2))
        (build_chain Option.isSome
          (ps.map (fun r => preMid r.1 (Option.map r.2)) ++ scMid :: rest)
          none)).body (some c) none) s = _
    rw [chained_run_none, pyCall2_preMid]
    simp only [runM_bind, runM_modifyLog, Option.map_some']
    rw [ih]
    simp

/-- C3 (amended): in a composed chain whose earlier middleware are forwarders
(pre-process, call `next`, return its result unchanged), if a middleware
returns `None` instead of calling its `next`, then no middleware declared after
it is invoked (the result is the same for every `rest`), and the composed
invocation returns the context exactly as it was immediately before the falsy
middleware ran. -/
theorem map_convert_preMidO (ps : List (String × (Γ → Γ))) :
    ((ps.map (fun r => preMid (E := E) r.1 (Option.map r.2))).map
        _convert_to_middleware) =
      ps.map (fun r => preMid r.1 (Option.map r.2)) := by
  rw [List.map_map]; rfl

theorem c3_short_circuit (rest : List (PyFunc (List String) E (Option Γ)))
    (ps : List (String × (Γ → Γ))) (c : Γ) (s : List String) :
    runM ((compose_middleware Option.isSome
        (ps.map (fun r => preMid r.1 (Option.map r.2)) ++ scMid :: rest)).body
        (some c) none) s =
      (Except.ok (some (ps.foldl (fun x r => r.2 x) c)),
       s ++ (ps.map Prod.fst ++ ["sc"])) := by
  rw [composed_body_ne_nil _ _ (by simp), List.map_append, map_convert_preMidO]
  show runM (callOpt (build_chain Option.isSome
      (ps.map (fun r => preMid r.1 (Option.map r.2)) ++
        scMid :: rest.map _convert_to_middleware) none) (some c)) s = _
  rw [sc_chain_run]

/-- A post-processing middleware: call `next` first, then add 10 to the counter
of whatever `next` returned. -/
def postMid : PyFunc (List String) Unit (Option Nat) :=
  mkMiddleware fun c nxt => do
    let r ← callOpt nxt c
    pure (r.map (· + 10))

/-- C3 counterexample: in the chain `[postMid, scMid]` the middleware `scMid`
returns `None` without calling `next` while the counter is 0, yet the composed
invocation returns counter 10 (postMid transforms the short-circuited result on
the way out), not the context as it was immediately before `scMid` ran. -/
theorem c3_counterexample :
    runM ((compose_middleware Option.isSome [postMid, scMid]).body (some 0) none)
        [] = (Except.ok (some 10), ["sc"])
    ∧ (some 10 : Option Nat) ≠ some 0 :=
  ⟨rfl, by decide⟩

/-! ### C5: exception propagation -/

/-- Running a chain made of pre-processing middleware, then a middleware that
raises `e`, then arbitrary further middleware `rest`: the user exception
propagates out unmodified, only the earlier middleware have logged, and nothing
depends on `rest`. -/
theorem throw_chain_run (truthy : C → Bool) (e : E)
    (rest : List (PyFunc (List String) E C)) (ps : List (String × (C → C)))
    (c : C) (s : List String) :
    runM (callOpt (build_chain truthy
        (ps.map (fun r => preMid r.1 r.2) ++ throwMid e :: rest) none) c) s =
      (Except.error (PyExc.exc e), s ++ ps.map Prod.fst) := by
  induction ps generalizing c s with
  | nil =>
    rw [List.map_nil, List.nil_append, build_chain_cons]
    show runM ((chained_middleware truthy (throwMid e)
        (build_chain truthy rest none)).body c none) s = _
    rw [chained_run_none]
    show (match runM (throwE (PyExc.exc e) : M (List String) E C) s with
      | (Except.ok out, s') =>
          if truthy out then (Except.ok out, s') else (Except.ok c, s')
      | (Except.error e', s') => (Except.error e', s')) = _
    simp [runM_throwE]
  | cons p ps ih =>
    rw [List.map_cons, List.cons_append, build_chain_cons]
    show runM ((chained_middleware truthy (preMid p.1 p.2)
        (build_chain truthy
          (ps.map (fun r => preMid r.1 r.2) ++ throwMid e :: rest) none)).body
        c none) s = _
    rw [chained_run_none, pyCall2_preMid]
    simp only [runM_bind, runM_modifyLog]
    rw [ih]
    simp

/-- C5: in a composed chain whose earlier middleware are forwarders, if a
middleware raises an exception, invoking the composed chain raises the same
exception unmodified - the composer neither catches nor translates it - and no
middleware declared after the failing one runs (the outcome is identical for
every `rest`, which contributes neither log entries nor effects). -/
theorem c5_exception_propagation (truthy : C → Bool) (e : E)
    (rest : List (PyFunc (List String) E C)) (ps : List (String × (C → C)))
    (c : C) (s : List String) :
    runM ((compose_middleware truthy
        (ps.map (fun r => preMid r.1 r.2) ++ throwMid e :: rest)).body c none) s =
      (Except.error (PyExc.exc e), s ++ ps.map Prod.fst) := by
  rw [composed_body_ne_nil _ _ (by simp), List.map_append, map_convert_preMid,
    List.map_cons]
  show runM (callOpt (build_chain truthy
      (ps.map (fun r => preMid r.1 r.2) ++
        throwMid e :: rest.map _convert_to_middleware) none) c) s = _
  rw [throw_chain_run]

/-! ### C4: handler classification and wrapping -/

/-- A callable that is not classified as a handler passes through conversion
unchanged. -/
theorem convert_of_not_handler (f : PyFunc σ E C) (h : f.required ≠ 1) :
    _convert_to_middleware f = f := by
  have hb : (f.required == 1) = false := by
    simp [h]
  simp [_convert_to_middleware, _is_handler, hb]

/-- C4: a callable is classified as a terminal handler iff it has exactly one
required (no-default) parameter.  A handler is wrapped into a two-parameter
middleware whose body invokes the handler on the context and then, when a
`next` is present, invokes `next` with the handler's result and returns that;
with no `next` it returns the handler's result.  Any other callable is returned
unchanged. -/
theorem c4_classification (f : PyFunc σ E C) :
    (_is_handler f = true ↔ f.required = 1)
    ∧ (f.required = 1 →
        (_convert_to_middleware f).required = 2
        ∧ (_convert_to_middleware f).optional = 0
        ∧ (∀ (c : C) (k : Kont σ E C),
            (_convert_to_middleware f).body c (some k) = pyCall1 f c >>= k)
        ∧ (∀ (c : C) (s : σ),
            runM ((_convert_to_middleware f).body c none) s =
              runM (pyCall1 f c) s))
    ∧ (f.required ≠ 1 → _convert_to_middleware f = f) := by
  refine ⟨by simp [_is_handler], fun h => ?_, convert_of_not_handler f⟩
  have hconv : _convert_to_middleware f =
      { required := 2
        optional := 0
        body := fun ctx nxt => do
          let context ← pyCall1 f ctx
          callOpt nxt context } := by
    simp [_convert_to_middleware, _is_handler, h]
  rw [hconv]
  refine ⟨rfl, rfl, fun c k => rfl, fun c s => ?_⟩
  show runM (pyCall1 f c >>= fun v => (pure v : M σ E C)) s = _
  rw [runM_bind]
  rcases hr : runM (pyCall1 f c) s with ⟨e | a, s'⟩ <;> rfl

/-- A concrete handler: one required parameter. -/
def idHandler : PyFunc Unit Unit Nat := mkHandler (fun c => pure c)

/-- A concrete middleware: two required parameters. -/
def idMiddleware : PyFunc Unit Unit Nat := mkMiddleware (fun c nxt => callOpt nxt c)

/-- C4 witness: the classification theorem applied to a concrete one-required-
parameter handler and a concrete two-parameter middleware. -/
theorem c4_witness :
    (_convert_to_middleware idHandler).required = 2
    ∧ runM ((_convert_to_middleware idHandler).body 0 none) () =
        runM (pyCall1 idHandler 0) ()
    ∧ (_convert_to_middleware idHandler).body 0 (some (fun c => pure c)) =
        (pyCall1 idHandler 0 >>= fun c => pure c)
    ∧ _convert_to_middleware idMiddleware = idMiddleware :=
  ⟨((c4_classification idHandler).2.1 rfl).1,
   ((c4_classification idHandler).2.1 rfl).2.2.2 0 (),
   ((c4_classification idHandler).2.1 rfl).2.2.1 0 (fun c => pure c),
   (c4_classification idMiddleware).2.2 (by decide)⟩

/-! ### C6: composing a single handler -/

/-- C6 (amended): composing a single handler `h` and invoking with `ctx` and no
trailing next runs exactly `h(ctx)` and yields its result - its exception, or
its value when that value is truthy; when `h` returns a falsy value the
composed invocation yields `ctx` instead. -/
theorem c6_single_handler (truthy : C → Bool) (hb : C → M σ E C) (ctx : C) (s : σ) :
    runM ((compose_middleware truthy [mkHandler hb]).body ctx none) s =
      match runM (hb ctx) s with
      | (Except.ok v, s') =>
          if truthy v then (Except.ok v, s') else (Except.ok ctx, s')
      | (Except.error e, s') => (Except.error e, s') := by
  rw [composed_body_eq]
  show runM ((chained_middleware truthy (_convert_to_middleware (mkHandler hb))
      none).body ctx none) s = _
  rw [chained_run_none]
  show (match runM (hb ctx >>= fun v => (pure v : M σ E C)) s with
    | (Except.ok out, s') =>
        if truthy out then (Except.ok out, s') else (Except.ok ctx, s')
    | (Except.error e, s') => (Except.error e, s')) = _
  rw [runM_bind]
  rcases hr : runM (hb ctx) s with ⟨e | a, s'⟩ <;> rfl

/-- A handler that returns `None` (a falsy value), as the `Handler` protocol's
`C | None` return type allows. -/
def noneHandler : PyFunc Unit Unit (Option Nat) := mkHandler (fun _ => pure none)

/-- C6 counterexample: for the handler that returns `None`, invoking the
composed chain on context `some 0` yields `some 0` - the prior context - while
`h(ctx)` itself yields `None`; the composed result is not `h(ctx)`. -/
theorem c6_counterexample :
    runM ((compose_middleware Option.isSome [noneHandler]).body (some 0) none) () =
      (Except.ok (some 0), ())
    ∧ runM (pyCall1 noneHandler (some 0)) () = (Except.ok none, ())
    ∧ (Except.ok (some 0) : Except (PyExc Unit) (Option Nat)) ≠ Except.ok none :=
  ⟨rfl, rfl, by simp⟩

/-! ### C7: a pass-through middleware composes to the identity -/

/-- C7: for every middleware whose body returns the input context unchanged
when its next is absent, composing it alone and invoking with `ctx` and no
trailing next yields `ctx`. -/
theorem c7_identity (truthy : C → Bool) (b : C → Option (Kont σ E C) → M σ E C)
    (ctx : C) (h : b ctx none = pure ctx) :
    (compose_middleware truthy [mkMiddleware b]).body ctx none = pure ctx := by
  show (pyCall2 (mkMiddleware b) ctx none >>= fun output_context =>
      if truthy output_context then pure output_context else pure ctx) = pure ctx
  rw [pyCall2_mkMiddleware, h, M.pure_bind]
  exact ite_self _

/-- C7 witness: the identity theorem applied to the concrete pass-through
middleware on context 5. -/
theorem c7_witness :
    (compose_middleware (fun _ => true)
        [mkMiddleware (fun (c : Nat) nxt => callOpt nxt c)]).body 5 none =
      (pure 5 : M Unit Unit Nat) :=
  c7_identity (fun _ => true) (fun c nxt => callOpt nxt c) 5 rfl

/-! ### C8: callables of unexpected arity -/

/-- A callable with zero required and zero optional parameters. -/
def badArity0 : PyFunc (List String) Unit Nat :=
  { required := 0, optional := 0, body := fun c _ => pure c }

/-- C8 counterexample: a zero-required-parameter callable is not rejected at
composition time.  `_is_handler` classifies it as a non-handler, conversion
silently returns it unchanged (treating it as middleware), composition
succeeds, and the arity error only surfaces as a `TypeError` when the composed
chain is invoked. -/
theorem c8_counterexample :
    _is_handler badArity0 = false
    ∧ _convert_to_middleware badArity0 = badArity0
    ∧ runM ((compose_middleware (fun _ => true) [badArity0]).body 0 none) [] =
        (Except.error PyExc.typeError, []) :=
  ⟨rfl, rfl, rfl⟩

/-- C8 (amended): a callable whose required-parameter count is neither 1 nor
compatible with a two-argument call is not rejected by `compose_middleware`:
it is classified as middleware and passed through conversion unchanged, and
invoking the composed chain raises `TypeError` at call time, when the chain
calls it with two arguments. -/
theorem c8_arity_deferred (truthy : C → Bool) (f : PyFunc σ E C)
    (h1 : f.required ≠ 1)
    (h2 : 2 < f.required ∨ f.required + f.optional < 2) :
    _convert_to_middleware f = f
    ∧ ∀ (ctx : C) (s : σ),
        runM ((compose_middleware truthy [f]).body ctx none) s =
          (Except.error PyExc.typeError, s) := by
  refine ⟨convert_of_not_handler f h1, fun ctx s => ?_⟩
  rw [composed_body_eq]
  show runM ((chained_middleware truthy (_convert_to_middleware f) none).body
      ctx none) s = _
  rw [convert_of_not_handler f h1, chained_run_none]
  have hc : pyCall2 f ctx none = throwE PyExc.typeError := by
    unfold pyCall2
    rw [if_neg]
    rintro ⟨ha, hb⟩
    rcases h2 with h2 | h2 <;> omega
  rw [hc, runM_throwE]

/-- C8 witness: the deferred-arity theorem applied to the concrete
zero-parameter callable, with its hypotheses discharged. -/
theorem c8_witness :
    _convert_to_middleware badArity0 = badArity0
    ∧ runM ((compose_middleware (fun _ => true) [badArity0]).body 7 none)
        ["start"] = (Except.error PyExc.typeError, ["start"]) := by
  have h := c8_arity_deferred (fun _ => true) badArity0 (by decide)
    (Or.inr (by decide))
  exact ⟨h.1, h.2 7 ["start"]⟩

/-! ### C9: composing the empty sequence -/

/-- C9: composing no middleware is not the identity middleware: with no
trailing next the internal chain is `None` and calling it raises `TypeError`;
with a trailing next `nxt` the composed invocation returns the result of
awaiting `nxt(ctx)`. -/
theorem c9_empty_composition (truthy : C → Bool) (ctx : C) (k : Kont σ E C) :
    (compose_middleware truthy ([] : List (PyFunc σ E C))).body ctx none =
      throwE PyExc.typeError
    ∧ (compose_middleware truthy ([] : List (PyFunc σ E C))).body ctx (some k) =
      k ctx :=
  ⟨rfl, rfl⟩

/-! ### C10: the `HttpResponse.body` setter -/

/-- The value stored in a `Record` entry (`Dict[str, Union[str, List[str]]]`). -/
inductive RecordVal : Type where
  | str : String → RecordVal
  | list : List String → RecordVal
deriving DecidableEq, Repr

/-- `d[key] = v` on a Python dict rendered as an insertion-ordered association
list: replace the entry in place when the key is present, append otherwise. -/
def dictSet (d : List (String × RecordVal)) (key : String) (v : RecordVal) :
    List (String × RecordVal) :=
  if d.any (fun p => p.1 == key) then
    d.map (fun p => if p.1 == key then (key, v) else p)
  else d ++ [(key, v)]

/-- `d[key]` lookup on a Python dict rendered as an association list. -/
def dictGet (d : List (String × RecordVal)) (key : String) : Option RecordVal :=
  (d.find? (fun p => p.1 == key)).map Prod.snd

/-- `HttpResponse` (context.py:105): a status, the headers dict, and the
private `_body` backing the `body` property.  `_body` holds bytes; the typed
field makes the claim's "always holds bytes after any assignment" an invariant
of the model, with the setter cases proved below. -/
structure HttpResponse : Type where
  status : Nat
  headers : List (String × RecordVal)
  _body : ByteArray

/-- A Python value assigned to `HttpResponse.body`: a `str`, `bytes`, or any
other value.  Other values are carried abstractly in `α`; the `json.dumps`
rendering used by the setter is supplied as `dumps`. -/
inductive BodyValue (α : Type) : Type where
  | str : String → BodyValue α
  | bytes : ByteArray → BodyValue α
  | other : α → BodyValue α

/-- The `body` property setter (context.py:119): a `str` is stored UTF-8
encoded; `bytes` are stored unchanged; any other value is stored as its
`json.dumps` rendering UTF-8 encoded, and the `Content-Type` header is set to
`["application/json"]`. -/
def body_setter {α : Type} (dumps : α → String) (res : HttpResponse)
    (value : BodyValue α) : HttpResponse :=
  match value with
  | .str s => { res with _body := s.toUTF8 }
  | .bytes b => { res with _body := b }
  | .other v =>
      { res with
        _body := (dumps v).toUTF8
        headers :=
          dictSet res.headers "Content-Type" (RecordVal.list ["application/json"]) }

/-- The `body` property getter (context.py:114). -/
def body_getter (res : HttpResponse) : ByteArray := res._body

theorem dictGet_map_set (d : List (String × RecordVal)) (key : String)
    (v : RecordVal) :
    dictGet (d.map (fun p => if p.1 == key then (key, v) else p)) key =
      if d.any (fun p => p.1 == key) then some v else none := by
  induction d with
  | nil => rfl
  | cons p d ih =>
    cases hp : (p.1 == key) with
    | true =>
      rw [List.map_cons, if_pos hp, List.any_cons, hp, Bool.true_or]
      unfold dictGet
      rw [List.find?_cons]
      simp
    | false =>
      rw [List.map_cons, if_neg (by simp [hp]), List.any_cons, hp, Bool.false_or]
      unfold dictGet
      rw [List.find?_cons, hp]
      exact ih

theorem dictGet_append_of_not_mem (d : List (String × RecordVal)) (key : String)
    (v : RecordVal) (h : d.any (fun p => p.1 == key) = false) :
    dictGet (d ++ [(key, v)]) key = some v := by
  induction d with
  | nil =>
    unfold dictGet
    rw [List.nil_append, List.find?_cons]
    simp
  | cons p d ih =>
    simp only [List.any_cons, Bool.or_eq_false_iff] at h
    rw [List.cons_append]
    unfold dictGet
    rw [List.find?_cons, h.1]
    exact ih h.2

/-- Looking up the key just assigned in a Python dict yields the assigned
value. -/
theorem dictGet_dictSet (d : List (String × RecordVal)) (key : String)
    (v : RecordVal) : dictGet (dictSet d key v) key = some v := by
  unfold dictSet
  by_cases h : d.any (fun p => p.1 == key)
  · rw [if_pos h, dictGet_map_set, if_pos h]
  · rw [Bool.not_eq_true] at h
    rw [if_neg (by simp [h])]
    exact dictGet_append_of_not_mem d key v h

/-- C10: after any assignment through the `body` setter the stored body is
bytes: a `str` is stored as its UTF-8 encoding, `bytes` are stored unchanged,
and any other value is stored as its JSON rendering UTF-8 encoded with the
response's `Content-Type` header set to `["application/json"]`; the `str` and
`bytes` cases leave the headers untouched, and no case changes the status. -/
theorem c10_body_setter {α : Type} (dumps : α → String) (res : HttpResponse)
    (s : String) (b : ByteArray) (v : α) :
    body_getter (body_setter dumps res (BodyValue.str s)) = s.toUTF8
    ∧ (body_setter dumps res (BodyValue.str s)).headers = res.headers
    ∧ body_getter (body_setter dumps res (BodyValue.bytes b)) = b
    ∧ (body_setter dumps res (BodyValue.bytes b)).headers = res.headers
    ∧ body_getter (body_setter dumps res (BodyValue.other v)) = (dumps v).toUTF8
    ∧ dictGet (body_setter dumps res (BodyValue.other v)).headers
        "Content-Type" = some (RecordVal.list ["application/json"])
    ∧ (body_setter dumps res (BodyValue.str s)).status = res.status
    ∧ (body_setter dumps res (BodyValue.bytes b)).status = res.status
    ∧ (body_setter dumps res (BodyValue.other v)).status = res.status :=
  ⟨rfl, rfl, rfl, rfl, rfl, dictGet_dictSet res.headers "Content-Type"
    (RecordVal.list ["application/json"]), rfl, rfl, rfl⟩

end Nitric
